import Mathlib

/-!
Shallow embedding of `src/usb_bos_webusb_msos20_analyzer.c` (the three
descriptor decoders and the UUID formatter) and proofs about it.

Buffers are modelled as `List Nat`; every byte read goes through `byte`,
which truncates to 8 bits exactly as the C code's `uint8_t` loads do.
Multi-byte little-endian loads (`x | y << 8` …) are modelled by `word`
and `dword`.  Each `printf` that reports a field or a diagnostic is
modelled as a finding carrying its formatted arguments, tagged with the
severity the C code prints (ERROR / WARNING / plain output); the
`errors`/`warnings` counters mirror the `error_count`/`warning_count`
variables, which in the C code are *not* incremented on the two
early-return "too short" paths even though an ERROR line is printed.
-/

/-- Severity of a reported finding: plain output, `WARNING:` or `ERROR:`. -/
inductive Sev where
  | info : Sev
  | warning : Sev
  | error : Sev
deriving DecidableEq

/-- A decode report: ordered findings plus the two counters
(`error_count`, `warning_count` in the C code). -/
structure Report (α : Type) where
  findings : List (Sev × α)
  errors : Nat
  warnings : Nat
deriving DecidableEq

namespace Report

/-- The state at the top of each parse function: no findings, both counters 0. -/
def empty {α : Type} : Report α := ⟨[], 0, 0⟩

/-- Append a finding with an explicit severity, leaving the counters alone. -/
def push {α : Type} (st : Report α) (s : Sev) (f : α) : Report α :=
  { st with findings := st.findings ++ [(s, f)] }

/-- A plain `printf` line: severity `info`, counters untouched. -/
def addInfo {α : Type} (st : Report α) (f : α) : Report α :=
  st.push Sev.info f

/-- A `WARNING:` line together with `warning_count++`. -/
def addWarn {α : Type} (st : Report α) (f : α) : Report α :=
  let st1 := st.push Sev.warning f
  { st1 with warnings := st1.warnings + 1 }

/-- An `ERROR:` line together with `error_count++`. -/
def addErr {α : Type} (st : Report α) (f : α) : Report α :=
  let st1 := st.push Sev.error f
  { st1 with errors := st1.errors + 1 }

/-- Number of findings printed as `ERROR:` lines. -/
def errCount {α : Type} (st : Report α) : Nat :=
  st.findings.countP (fun p => decide (p.1 = Sev.error))

/-- Number of findings printed as `WARNING:` lines. -/
def warnCount {α : Type} (st : Report α) : Nat :=
  st.findings.countP (fun p => decide (p.1 = Sev.warning))

end Report

/-- `data[i]` as an 8-bit load: out-of-range indices read the modelled
backing store's default 0, and the value is truncated to a byte. -/
def byte (data : List Nat) (i : Nat) : Nat := data.getD i 0 % 256

/-- 16-bit little-endian load `data[i] | (data[i+1] << 8)`. -/
def word (data : List Nat) (i : Nat) : Nat :=
  byte data i + 256 * byte data (i + 1)

/-- 32-bit little-endian load
`data[i] | (data[i+1] << 8) | (data[i+2] << 16) | (data[i+3] << 24)`. -/
def dword (data : List Nat) (i : Nat) : Nat :=
  byte data i + 256 * byte data (i + 1) + 65536 * byte data (i + 2) +
    16777216 * byte data (i + 3)

/-- One lowercase hexadecimal digit, as produced by `%02x`. -/
def hexDigit (n : Nat) : Char :=
  if n < 10 then Char.ofNat (48 + n) else Char.ofNat (87 + n)

/-- Two lowercase hexadecimal digits of a byte, as produced by `%02x`. -/
def hexByte (n : Nat) : String :=
  String.mk [hexDigit (n / 16 % 16), hexDigit (n % 16)]

/-- `uuid_to_string` (src lines 54-61): canonical mixed-endian UUID text,
first DWORD and the two following WORDs byte-reversed, last 8 bytes in
order, lowercase hex grouped 8-4-4-4-12. -/
def uuid_to_string (u : List Nat) : String :=
  hexByte (byte u 3) ++ hexByte (byte u 2) ++ hexByte (byte u 1) ++ hexByte (byte u 0) ++ "-" ++
  hexByte (byte u 5) ++ hexByte (byte u 4) ++ "-" ++
  hexByte (byte u 7) ++ hexByte (byte u 6) ++ "-" ++
  hexByte (byte u 8) ++ hexByte (byte u 9) ++ "-" ++
  hexByte (byte u 10) ++ hexByte (byte u 11) ++ hexByte (byte u 12) ++
  hexByte (byte u 13) ++ hexByte (byte u 14) ++ hexByte (byte u 15)

/-- The WebUSB platform-capability UUID constant (src line 33). -/
def WEBUSB_UUID_STR : String := "3408b638-09a9-47a0-8bfd-a0768815b665"

/-- The MS OS 2.0 platform-capability UUID constant (src line 34). -/
def MSOS20_UUID_STR : String := "d8dd60df-4589-4cc7-9cd2-659d9e648a9f"

/-- Findings of `parse_bos_descriptor`, one constructor per report line. -/
inductive BosFinding where
  /-- "ERROR: BOS descriptor too short (%d bytes, minimum 5)" (line 72). -/
  | errTooShort (length : Nat)
  /-- The BOS header field dump (lines 78-83). -/
  | header (bLength bDescriptorType wTotalLength bNumDeviceCaps : Nat)
  /-- "ERROR: Invalid BOS descriptor type" (line 86). -/
  | errInvalidType
  /-- "WARNING: BOS total length mismatch" (line 91). -/
  | warnTotalLenMismatch (reported actual : Nat)
  /-- "ERROR: Truncated device capability at offset %d" (line 101). -/
  | errTruncatedCap (offset : Nat)
  /-- The per-capability header dump (lines 110-114). -/
  | capHeader (idx offset bLength bDescriptorType bDevCapabilityType : Nat)
  /-- "Platform Capability: bReserved / UUID" (lines 121-123). -/
  | platformInfo (bReserved : Nat) (uuid : String)
  /-- "Type: WebUSB Platform Capability" (line 126). -/
  | webusbType
  /-- "WebUSB Data: bcdVersion / bVendorCode / iLandingPage" (lines 133-137). -/
  | webusbData (bcdVersion bVendorCode iLandingPage : Nat)
  /-- "WARNING: WebUSB vendor code is 0 (invalid)" (line 140). -/
  | warnVendorCodeZero
  /-- "Type: MS OS 2.0 Platform Capability" (line 145). -/
  | msosType
  /-- "MS OS 2.0 Data" field dump (lines 156-160). -/
  | msosData (dwWindowsVersion wDescSetTotalLength bVendorCode bAltEnumCode : Nat)
  /-- "WARNING: Unusual Windows version" (line 163). -/
  | warnWinVersion
  /-- "Type: Unknown Platform Capability" (line 168). -/
  | unknownPlatform
  /-- "Non-Platform Capability (type 0x%02x)" (line 171). -/
  | nonPlatformCap (bDevCapabilityType : Nat)
deriving DecidableEq

/-- Body of one BOS device-capability iteration after the 3-byte header
check (src lines 106-174): dump the capability header, and when the
capability type is Platform (0x05) *and* the 20-byte fixed platform
header fits in the buffer, format the UUID and dispatch on it.  The
WebUSB / MS OS 2.0 trailing payloads are read when the record's own
`bLength` covers them (`cap_length >= 20+4` resp. `>= 20+8`) — the C
code does not compare those trailing indices against `length`. -/
def bosProcessCap (data : List Nat) (len offset capCount : Nat)
    (st : Report BosFinding) : Report BosFinding :=
  let capLen := byte data offset
  let capType := byte data (offset + 1)
  let capCapType := byte data (offset + 2)
  let st1 := st.addInfo (.capHeader capCount offset capLen capType capCapType)
  if capCapType = 5 ∧ offset + 20 ≤ len then
    let uuid := (List.range 16).map (fun i => byte data (offset + 4 + i))
    let s := uuid_to_string uuid
    let st2 := st1.addInfo (.platformInfo (byte data (offset + 3)) s)
    if s = WEBUSB_UUID_STR then
      let st3 := st2.addInfo .webusbType
      if 24 ≤ capLen then
        let bcd := byte data (offset + 20) + 256 * byte data (offset + 21)
        let vendor := byte data (offset + 22)
        let landing := byte data (offset + 23)
        let st4 := st3.addInfo (.webusbData bcd vendor landing)
        if vendor = 0 then st4.addWarn .warnVendorCodeZero else st4
      else st3
    else if s = MSOS20_UUID_STR then
      let st3 := st2.addInfo .msosType
      if 28 ≤ capLen then
        let winver := dword data (offset + 20)
        let dsl := word data (offset + 24)
        let vendor := byte data (offset + 26)
        let alt := byte data (offset + 27)
        let st4 := st3.addInfo (.msosData winver dsl vendor alt)
        if winver ≠ 0x06030000 then st4.addWarn .warnWinVersion else st4
      else st3
    else st2.addInfo .unknownPlatform
  else st1.addInfo (.nonPlatformCap capCapType)

/-- The BOS device-capability walk (src lines 99-177):
`while (offset < length && cap_count < bNumDeviceCaps)`.  The loop
counter `cap_count` is incremented on every iteration, so the number of
remaining iterations `bNumDeviceCaps - cap_count` is the structurally
decreasing argument; the pair returned is the final report and the final
`cap_count`. -/
def bosWalk (data : List Nat) (len : Nat) :
    Nat → Nat → Nat → Report BosFinding → Report BosFinding × Nat
  | 0, _, capCount, st => (st, capCount)
  | remaining + 1, offset, capCount, st =>
    if offset < len then
      if offset + 3 > len then (st.addErr (.errTruncatedCap offset), capCount)
      else
        bosWalk data len remaining (offset + byte data offset) (capCount + 1)
          (bosProcessCap data len offset capCount st)
    else (st, capCount)

/-- `parse_bos_descriptor` (src lines 63-190).  Returns the report and the
final `cap_count`.  On `length < 5` the C code prints one ERROR line and
returns before touching `error_count`, hence the counter 0 there. -/
def parse_bos_descriptor (data : List Nat) (length : Nat) :
    Report BosFinding × Nat :=
  if length < 5 then (⟨[(Sev.error, .errTooShort length)], 0, 0⟩, 0)
  else
    let bLength := byte data 0
    let bType := byte data 1
    let wTotal := word data 2
    let numCaps := byte data 4
    let st0 := (Report.empty).addInfo (.header bLength bType wTotal numCaps)
    let st1 := if bType ≠ 15 then st0.addErr .errInvalidType else st0
    let st2 := if wTotal ≠ length then st1.addWarn (.warnTotalLenMismatch wTotal length) else st1
    bosWalk data length numCaps bLength 0 st2

/-- Findings of `parse_webusb_url_descriptor`. -/
inductive UrlFinding where
  /-- "ERROR: WebUSB URL descriptor too short" (line 197). -/
  | errTooShort
  /-- The bLength / bDescriptorType / bScheme dump (lines 205-208). -/
  | header (bLength bDescriptorType bScheme : Nat)
  /-- The scheme label printed inside the switch (lines 211-228). -/
  | schemeLabel (label : String)
  /-- "URL: <scheme text><raw bytes>" (lines 230-236). -/
  | url (schemeTxt : String) (bytes : List Nat)
deriving DecidableEq

/-- The scheme label printed in the `switch` (HTTP / HTTPS / None / Unknown). -/
def schemeName (s : Nat) : String :=
  if s = 0 then "HTTP" else if s = 1 then "HTTPS"
  else if s = 255 then "None" else "Unknown"

/-- The `scheme_prefix` chosen by the `switch` (src lines 210-228). -/
def schemeText (s : Nat) : String :=
  if s = 0 then "http://" else if s = 1 then "https://"
  else if s = 255 then "" else "unknown://"

/-- The raw URL byte echo `for (i = 3; i < length && i < bLength; i++)`
(src lines 232-234): bytes at indices 3 … min bLength length - 1. -/
def urlBytes (data : List Nat) (length bLength : Nat) : List Nat :=
  (List.range' 3 (min bLength length - 3)).map (byte data)

/-- `parse_webusb_url_descriptor` (src lines 192-238). -/
def parse_webusb_url_descriptor (data : List Nat) (length : Nat) :
    Report UrlFinding :=
  if length < 3 then ⟨[(Sev.error, .errTooShort)], 0, 0⟩
  else
    let bLength := byte data 0
    let bType := byte data 1
    let bScheme := byte data 2
    let st0 := (Report.empty).addInfo (.header bLength bType bScheme)
    let st1 := st0.addInfo (.schemeLabel (schemeName bScheme))
    if length > 3 then
      st1.addInfo (.url (schemeText bScheme) (urlBytes data length bLength))
    else st1

/-- Findings of `parse_msos20_descriptor`, one constructor per report line. -/
inductive MsFinding where
  /-- "ERROR: Truncated descriptor at offset %d (need 4 bytes, have %d)" (line 251). -/
  | errTruncated (offset have_ : Nat)
  /-- "Offset %d: " record marker (line 260). -/
  | atOffset (offset : Nat)
  /-- "ERROR: Zero length descriptor at offset %d" (line 264). -/
  | errZeroLength (offset : Nat)
  /-- "ERROR: Invalid descriptor length %d at offset %d (minimum is 4)" (line 270). -/
  | errBadLength (wLength offset : Nat)
  /-- "ERROR: Descriptor extends beyond buffer" (line 277). -/
  | errBeyond (offset wLength buffer : Nat)
  /-- "ERROR: Set Header too short" (line 286). -/
  | errSetHeaderShort (wLength : Nat)
  /-- "Set Header (len, winver, total)" (line 292). -/
  | setHeader (wLength dwWindowsVersion wTotalLength : Nat)
  /-- "WARNING: Total length mismatch" (line 297). -/
  | warnTotalMismatch (reported actual : Nat)
  /-- "WARNING: Set Header not at beginning (offset=%d)" (line 304). -/
  | warnNotAtStart (offset : Nat)
  /-- "WARNING: Unusual Windows version" (lines 310 / 163-equivalent). -/
  | warnWinVersion
  /-- "ERROR: Configuration Subset Header too short" (line 318). -/
  | errCfgShort (wLength : Nat)
  /-- "Configuration Subset Header (len, config, total)" (line 324). -/
  | cfgHeader (wLength bConfigurationValue wTotalLength : Nat)
  /-- "WARNING: Reserved field not zero (value=%d)" (lines 328 / 352). -/
  | warnReservedNonzero (value : Nat)
  /-- "ERROR: Configuration subset extends beyond buffer" (line 334). -/
  | errCfgBeyond
  /-- "ERROR: Function Subset Header too short" (line 342). -/
  | errFuncShort (wLength : Nat)
  /-- "Function Subset Header (len, interface, subset)" (line 348). -/
  | funcHeader (wLength bFirstInterface wSubsetLength : Nat)
  /-- "ERROR: Function subset extends beyond buffer" (line 358). -/
  | errFuncBeyond
  /-- "ERROR: Function subset length smaller than header length" (line 363). -/
  | errFuncSubsetSmall
  /-- "ERROR: Compatible ID Feature too short" (line 371). -/
  | errCompatShort (wLength : Nat)
  /-- "Compatible ID Feature (len, compat, subcompat)" (line 374): the two
  `%.8s` fields, each up to 8 bytes stopping at the first NUL. -/
  | compatId (wLength : Nat) (compat subCompat : List Nat)
  /-- "WARNING: Compatible ID is not 'WINUSB'" (line 380). -/
  | warnNotWinusb
  /-- "WARNING: Compatible ID not properly null-terminated" (line 386). -/
  | warnNotNullTerm
  /-- "ERROR: Registry Property Feature too short" (line 394). -/
  | errRegShort (wLength : Nat)
  /-- "Registry Property Feature (len, datatype, namelen)" (line 399). -/
  | regProperty (wLength wPropertyDataType wPropertyNameLength : Nat)
  /-- "WARNING: Unusual property data type" (line 404). -/
  | warnPropDataType
  /-- "ERROR: Invalid property name length (must be even and >0)" (line 410). -/
  | errNameLenInvalid
  /-- "ERROR: Property name extends beyond descriptor" (line 413). -/
  | errNameBeyond
  /-- "Property Name: %s" as rendered by the ASCII/`?`/NUL-stop loop (lines 417-432). -/
  | propertyName (name : String)
  /-- "WARNING: Empty property name" (line 435). -/
  | warnEmptyName
  /-- "ERROR: Property data length field beyond descriptor" (line 442). -/
  | errDataLenBeyond
  /-- "Property Data Length: %d" (line 446). -/
  | propertyDataLength (wPropertyDataLength : Nat)
  /-- "ERROR: Length mismatch (calculated=%d, reported=%d)" (line 451). -/
  | errLengthMismatch (calculated reported : Nat)
  /-- "ERROR: Property data extends beyond descriptor" (line 457). -/
  | errDataBeyond
  /-- "Property Data: %s" (lines 460-473). -/
  | propertyData (text : String)
  /-- "ERROR: Unknown Descriptor Type 0x%04x (len=%d)" (line 481). -/
  | errUnknownType (wDescriptorType wLength : Nat)
deriving DecidableEq

/-- `%.8s`: up to `n` bytes starting at `i`, stopping at the first NUL. -/
def cstrN (data : List Nat) (i n : Nat) : List Nat :=
  match n with
  | 0 => []
  | k + 1 =>
    let c := byte data i
    if c = 0 then [] else c :: cstrN data (i + 1) k

/-- The property-name rendering loop (src lines 419-431):
`for (i = 0; i < nameLen-2; i += 2)` with a per-step in-bounds guard
`idx + 1 < length`; printable ASCII code units are echoed, NUL stops the
loop early, anything else prints `?`; `chars` counts echoed characters.
`idx` is the absolute index `offset + 8 + i`; `iters` the remaining
iteration count. -/
def msosRenderName (data : List Nat) (len : Nat) :
    Nat → Nat → String → Nat → String × Nat
  | _, 0, acc, chars => (acc, chars)
  | idx, iters + 1, acc, chars =>
    if idx + 1 < len then
      let c := byte data idx
      if 32 ≤ c ∧ c ≤ 126 then
        msosRenderName data len (idx + 2) iters (acc.push (Char.ofNat c)) (chars + 1)
      else if c = 0 then (acc, chars)
      else msosRenderName data len (idx + 2) iters (acc.push '?') chars
    else msosRenderName data len (idx + 2) iters acc chars

/-- The property-data rendering loop (src lines 461-472): like the name
loop but the guard is `idx < length` and no character counter is kept. -/
def msosRenderData (data : List Nat) (len : Nat) :
    Nat → Nat → String → String
  | _, 0, acc => acc
  | idx, iters + 1, acc =>
    if idx < len then
      let c := byte data idx
      if 32 ≤ c ∧ c ≤ 126 then
        msosRenderData data len (idx + 2) iters (acc.push (Char.ofNat c))
      else if c = 0 then acc
      else msosRenderData data len (idx + 2) iters (acc.push '?')
    else msosRenderData data len (idx + 2) iters acc

/-- The `switch (wDescriptorType)` body of the MS OS 2.0 walk
(src lines 283-484), for a record at `offset` whose step-3 length checks
already passed.  None of its error paths stops the walk. -/
def msosDispatch (data : List Nat) (len offset w t : Nat)
    (st : Report MsFinding) : Report MsFinding :=
  if t = 0 then
    if w < 10 then st.addErr (.errSetHeaderShort w)
    else
      let winver := dword data (offset + 4)
      let total := word data (offset + 8)
      let st1 := st.addInfo (.setHeader w winver total)
      let st2 := if total ≠ len then st1.addWarn (.warnTotalMismatch total len) else st1
      let st3 := if offset ≠ 0 then st2.addWarn (.warnNotAtStart offset) else st2
      if winver ≠ 0x06030000 then st3.addWarn .warnWinVersion else st3
  else if t = 1 then
    if w < 8 then st.addErr (.errCfgShort w)
    else
      let cfg := byte data (offset + 4)
      let rsv := byte data (offset + 5)
      let total := word data (offset + 6)
      let st1 := st.addInfo (.cfgHeader w cfg total)
      let st2 := if rsv ≠ 0 then st1.addWarn (.warnReservedNonzero rsv) else st1
      if offset + total > len then st2.addErr .errCfgBeyond else st2
  else if t = 2 then
    if w < 8 then st.addErr (.errFuncShort w)
    else
      let iface := byte data (offset + 4)
      let rsv := byte data (offset + 5)
      let subset := word data (offset + 6)
      let st1 := st.addInfo (.funcHeader w iface subset)
      let st2 := if rsv ≠ 0 then st1.addWarn (.warnReservedNonzero rsv) else st1
      let st3 := if offset + subset > len then st2.addErr .errFuncBeyond else st2
      if subset < w then st3.addErr .errFuncSubsetSmall else st3
  else if t = 3 then
    if w < 20 then st.addErr (.errCompatShort w)
    else
      let st1 := st.addInfo
        (.compatId w (cstrN data (offset + 4) 8) (cstrN data (offset + 12) 8))
      let st2 :=
        if byte data (offset + 4) = 87 ∧ byte data (offset + 5) = 73 ∧
           byte data (offset + 6) = 78 ∧ byte data (offset + 7) = 85 ∧
           byte data (offset + 8) = 83 ∧ byte data (offset + 9) = 66
        then st1 else st1.addWarn .warnNotWinusb
      if byte data (offset + 10) ≠ 0 ∨ byte data (offset + 11) ≠ 0 then
        st2.addWarn .warnNotNullTerm
      else st2
  else if t = 4 then
    if w < 8 then st.addErr (.errRegShort w)
    else
      let dtype := word data (offset + 4)
      let nameLen := word data (offset + 6)
      let st1 := st.addInfo (.regProperty w dtype nameLen)
      let st2 := if dtype ≠ 1 ∧ dtype ≠ 7 then st1.addWarn .warnPropDataType else st1
      if nameLen = 0 ∨ nameLen % 2 ≠ 0 then st2.addErr .errNameLenInvalid
      else if offset + 8 + nameLen > len then st2.addErr .errNameBeyond
      else
        let rendered := msosRenderName data len (offset + 8) ((nameLen - 2) / 2) "" 0
        let st3 := st2.addInfo (.propertyName rendered.1)
        let st4 := if rendered.2 = 0 then st3.addWarn .warnEmptyName else st3
        let dOff := offset + 8 + nameLen
        if dOff + 2 > len then st4.addErr .errDataLenBeyond
        else
          let dLen := word data dOff
          let st5 := st4.addInfo (.propertyDataLength dLen)
          let expected := 8 + nameLen + 2 + dLen
          let st6 := if expected ≠ w then st5.addErr (.errLengthMismatch expected w) else st5
          if dOff + 2 + dLen > len then st6.addErr .errDataBeyond
          else if dLen > 0 then
            st6.addInfo (.propertyData (msosRenderData data len (dOff + 2) ((dLen - 1) / 2) ""))
          else st6
  else st.addErr (.errUnknownType t w)

/-- The MS OS 2.0 walk `while (offset < length)` (src lines 248-487).
Every continuing iteration advances `offset` by `wLength ≥ 4`, so at most
`⌈length/4⌉` iterations can run; the structural `fuel` argument is an
upper bound on the remaining iterations supplied by the caller
(`length + 1` is always enough — see `msosWalkF_fuel_irrelevant`). -/
def msosWalkF (data : List Nat) (len : Nat) :
    Nat → Nat → Report MsFinding → Report MsFinding
  | 0, _, st => st
  | fuel + 1, offset, st =>
    if offset < len then
      if offset + 4 > len then st.addErr (.errTruncated offset (len - offset))
      else
        let w := word data offset
        let t := word data (offset + 2)
        let st1 := st.addInfo (.atOffset offset)
        if w = 0 then st1.addErr (.errZeroLength offset)
        else if w < 4 then st1.addErr (.errBadLength w offset)
        else if offset + w > len then st1.addErr (.errBeyond offset w len)
        else msosWalkF data len fuel (offset + w) (msosDispatch data len offset w t st1)
    else st

/-- `parse_msos20_descriptor` (src lines 240-500). -/
def parse_msos20_descriptor (data : List Nat) (length : Nat) : Report MsFinding :=
  msosWalkF data length (length + 1) 0 Report.empty

/-- The hypothesis of claim C4, checked along the same offsets the walk
visits: every device-capability record reached while `offset < len` has
its 3-byte header inside the buffer, a non-zero declared length, and
fits within the declared buffer length. -/
def bosCapsOK (data : List Nat) (len : Nat) : Nat → Nat → Bool
  | 0, _ => true
  | r + 1, offset =>
    if offset < len then
      if offset + 3 ≤ len ∧ byte data offset ≠ 0 ∧ offset + byte data offset ≤ len then
        bosCapsOK data len r (offset + byte data offset)
      else false
    else true

/-- Buffer for claim C1: a 25-byte BOS descriptor (declared length 25)
whose single platform capability starts at offset 5, carries the WebUSB
UUID, ends exactly at the declared length (offset + 20 = 25), yet
declares `bLength = 24`; the byte `v` sits at physical index 27 =
offset + 22, the vendor-code position, *beyond* the declared length. -/
def c1buf (v : Nat) : List Nat :=
  [5, 15, 25, 0, 1,
   24, 16, 5, 0,
   0x38, 0xb6, 0x08, 0x34, 0xa9, 0x09, 0xa0, 0x47,
   0x8b, 0xfd, 0xa0, 0x76, 0x88, 0x15, 0xb6, 0x65] ++ [0, 0, v, 0]

/-- Buffer family for claim C6: a Registry-Property Feature record at
offset 0 with declared `wLength = w`, `wPropertyDataType = 1`,
`wPropertyNameLength = 4`, name bytes "A\0" in UTF-16LE, and
`wPropertyDataLength = 0`, padded with zeros to `max w 14` bytes. -/
def c6buf (w : Nat) : List Nat :=
  [w % 256, w / 256 % 256, 4, 0, 1, 0, 4, 0, 65, 0, 0, 0, 0, 0] ++
    List.replicate (w - 14) 0

/-- Declared length that goes with `c6buf`. -/
def c6len (w : Nat) : Nat := max w 14

/-! ### Report bookkeeping lemmas -/

@[simp] lemma Report.errors_addInfo {α : Type} (st : Report α) (f : α) :
    (st.addInfo f).errors = st.errors := rfl

@[simp] lemma Report.errors_addWarn {α : Type} (st : Report α) (f : α) :
    (st.addWarn f).errors = st.errors := rfl

@[simp] lemma Report.errors_addErr {α : Type} (st : Report α) (f : α) :
    (st.addErr f).errors = st.errors + 1 := rfl

@[simp] lemma Report.warnings_addInfo {α : Type} (st : Report α) (f : α) :
    (st.addInfo f).warnings = st.warnings := rfl

@[simp] lemma Report.warnings_addWarn {α : Type} (st : Report α) (f : α) :
    (st.addWarn f).warnings = st.warnings + 1 := rfl

@[simp] lemma Report.warnings_addErr {α : Type} (st : Report α) (f : α) :
    (st.addErr f).warnings = st.warnings := rfl

@[simp] lemma Report.findings_addInfo {α : Type} (st : Report α) (f : α) :
    (st.addInfo f).findings = st.findings ++ [(Sev.info, f)] := rfl

@[simp] lemma Report.findings_addWarn {α : Type} (st : Report α) (f : α) :
    (st.addWarn f).findings = st.findings ++ [(Sev.warning, f)] := rfl

@[simp] lemma Report.findings_addErr {α : Type} (st : Report α) (f : α) :
    (st.addErr f).findings = st.findings ++ [(Sev.error, f)] := rfl

@[simp] lemma Report.errCount_addInfo {α : Type} (st : Report α) (f : α) :
    (st.addInfo f).errCount = st.errCount := by
  simp [Report.errCount, Report.addInfo, Report.push, List.countP_append]

@[simp] lemma Report.errCount_addWarn {α : Type} (st : Report α) (f : α) :
    (st.addWarn f).errCount = st.errCount := by
  simp [Report.errCount, Report.addWarn, Report.push, List.countP_append]

@[simp] lemma Report.errCount_addErr {α : Type} (st : Report α) (f : α) :
    (st.addErr f).errCount = st.errCount + 1 := by
  simp [Report.errCount, Report.addErr, Report.push, List.countP_append, List.countP_cons]

@[simp] lemma Report.warnCount_addInfo {α : Type} (st : Report α) (f : α) :
    (st.addInfo f).warnCount = st.warnCount := by
  simp [Report.warnCount, Report.addInfo, Report.push, List.countP_append]

@[simp] lemma Report.warnCount_addWarn {α : Type} (st : Report α) (f : α) :
    (st.addWarn f).warnCount = st.warnCount + 1 := by
  simp [Report.warnCount, Report.addWarn, Report.push, List.countP_append, List.countP_cons]

@[simp] lemma Report.warnCount_addErr {α : Type} (st : Report α) (f : α) :
    (st.addErr f).warnCount = st.warnCount := by
  simp [Report.warnCount, Report.addErr, Report.push, List.countP_append]

/-- The capability-processing body never touches `error_count`: its only
diagnostics are plain output lines and the two WARNING lines. -/
lemma bosProcessCap_errors (data : List Nat) (len offset capCount : Nat)
    (st : Report BosFinding) :
    (bosProcessCap data len offset capCount st).errors = st.errors := by
  simp only [bosProcessCap]
  split_ifs <;> simp

/-- The capability-processing body adds no ERROR-severity finding either. -/
lemma bosProcessCap_errCount (data : List Nat) (len offset capCount : Nat)
    (st : Report BosFinding) :
    (bosProcessCap data len offset capCount st).errCount = st.errCount := by
  simp only [bosProcessCap]
  split_ifs <;> simp

/-- Each BOS walk iteration increments `cap_count`, so the final count is
bounded by the initial count plus the remaining-iteration budget. -/
lemma bosWalk_caps_le (data : List Nat) (len : Nat) :
    ∀ r offset capCount st, (bosWalk data len r offset capCount st).2 ≤ capCount + r := by
  intro r
  induction r with
  | zero => intro o cc st; simp [bosWalk]
  | succ n ih =>
    intro o cc st
    by_cases h1 : o < len
    · by_cases h2 : o + 3 > len
      · simp [bosWalk, h1, h2]
      · have hstep : bosWalk data len (n + 1) o cc st =
            bosWalk data len n (o + byte data o) (cc + 1) (bosProcessCap data len o cc st) := by
          simp [bosWalk, h1, h2]
        rw [hstep]
        exact le_trans (ih _ _ _) (by omega)
    · simp [bosWalk, h1]

/-- When every record the walk visits passes the C4 validity check, the
walk leaves `error_count` (and the ERROR-finding count) unchanged. -/
lemma bosWalk_capsOK_errors (data : List Nat) (len : Nat) :
    ∀ r offset capCount st, bosCapsOK data len r offset = true →
      (bosWalk data len r offset capCount st).1.errors = st.errors ∧
      (bosWalk data len r offset capCount st).1.errCount = st.errCount := by
  intro r
  induction r with
  | zero => intro o cc st _; exact ⟨rfl, rfl⟩
  | succ n ih =>
    intro o cc st hok
    by_cases h1 : o < len
    · by_cases hc : o + 3 ≤ len ∧ byte data o ≠ 0 ∧ o + byte data o ≤ len
      · have hrec : bosCapsOK data len n (o + byte data o) = true := by
          simpa [bosCapsOK, h1, hc] using hok
        have h2 : ¬ (o + 3 > len) := by omega
        have hstep : bosWalk data len (n + 1) o cc st =
            bosWalk data len n (o + byte data o) (cc + 1) (bosProcessCap data len o cc st) := by
          simp [bosWalk, h1, h2]
        rw [hstep]
        obtain ⟨e1, e2⟩ := ih (o + byte data o) (cc + 1) (bosProcessCap data len o cc st) hrec
        rw [e1, e2, bosProcessCap_errors, bosProcessCap_errCount]
        exact ⟨rfl, rfl⟩
      · exfalso
        simp [bosCapsOK, h1, hc] at hok
    · have : bosWalk data len (n + 1) o cc st = (st, cc) := by simp [bosWalk, h1]
      rw [this]
      exact ⟨rfl, rfl⟩

/-- A finished walk: once `offset` has reached the declared length the
MS OS 2.0 loop does nothing, whatever fuel remains. -/
lemma msosWalkF_of_le (data : List Nat) (len offset : Nat) (h : len ≤ offset) :
    ∀ fuel st, msosWalkF data len fuel offset st = st := by
  intro fuel st
  have hof : ¬ (offset < len) := by omega
  cases fuel with
  | zero => rfl
  | succ n => simp [msosWalkF, hof]

/-- Faithfulness of the fuel parameter: any fuel covering the worst case
of one iteration per 4 bytes gives the same result, so `length + 1`
(used by `parse_msos20_descriptor`) reproduces the C `while` loop. -/
theorem msosWalkF_fuel_irrelevant (data : List Nat) (len : Nat) :
    ∀ f g offset st, len ≤ offset + 4 * f → len ≤ offset + 4 * g →
      msosWalkF data len f offset st = msosWalkF data len g offset st := by
  intro f
  induction f with
  | zero =>
    intro g offset st hf hg
    have hof : ¬ (offset < len) := by omega
    cases g with
    | zero => rfl
    | succ m => simp [msosWalkF, hof]
  | succ n ih =>
    intro g offset st hf hg
    cases g with
    | zero =>
      have hof : ¬ (offset < len) := by omega
      simp [msosWalkF, hof]
    | succ m =>
      by_cases h1 : offset < len
      · by_cases h2 : offset + 4 > len
        · simp [msosWalkF, h1, h2]
        · by_cases hz : word data offset = 0
          · simp [msosWalkF, h1, h2, hz]
          · by_cases hl : word data offset < 4
            · simp [msosWalkF, h1, h2, hz, hl]
            · by_cases hb : offset + word data offset > len
              · simp [msosWalkF, h1, h2, hz, hl, hb]
              · have e1 : msosWalkF data len (n + 1) offset st =
                    msosWalkF data len n (offset + word data offset)
                      (msosDispatch data len offset (word data offset)
                        (word data (offset + 2)) (st.addInfo (.atOffset offset))) := by
                  simp [msosWalkF, h1, h2, hz, hl, hb]
                have e2 : msosWalkF data len (m + 1) offset st =
                    msosWalkF data len m (offset + word data offset)
                      (msosDispatch data len offset (word data offset)
                        (word data (offset + 2)) (st.addInfo (.atOffset offset))) := by
                  simp [msosWalkF, h1, h2, hz, hl, hb]
                rw [e1, e2]
                exact ih m _ _ (by omega) (by omega)
      · simp [msosWalkF, h1]

/-! ### Claim theorems -/

/-- C9. `uuid_to_string` is a (pure, total) function of its 16 input
bytes, and on the bytes 38 b6 08 34 a9 09 a0 47 8b fd a0 76 88 15 b6 65
it yields exactly "3408b638-09a9-47a0-8bfd-a0768815b665": the first
DWORD and the two WORDs are byte-reversed, the last 8 bytes kept in
order, all lowercase hex grouped 8-4-4-4-12. -/
theorem uuid_to_string_concrete_vector :
    uuid_to_string [0x38, 0xb6, 0x08, 0x34, 0xa9, 0x09, 0xa0, 0x47,
                    0x8b, 0xfd, 0xa0, 0x76, 0x88, 0x15, 0xb6, 0x65] =
      "3408b638-09a9-47a0-8bfd-a0768815b665" := by decide

/-- C5. A declared length below 5 makes the BOS decode emit exactly one
ERROR finding (the "too short" line), no capability findings at all, and
return immediately with `cap_count = 0`, before the walk starts. -/
theorem bos_short_buffer_single_error_no_caps (data : List Nat) (length : Nat)
    (h : length < 5) :
    parse_bos_descriptor data length =
      (⟨[(Sev.error, .errTooShort length)], 0, 0⟩, 0) ∧
    (parse_bos_descriptor data length).1.errCount = 1 := by
  constructor
  · simp [parse_bos_descriptor, h]
  · simp [parse_bos_descriptor, h, Report.errCount]

/-- C5 witness: the theorem applied at a concrete 3-byte buffer. -/
theorem bos_short_buffer_single_error_no_caps_witness :
    (3 : Nat) < 5 ∧
    (parse_bos_descriptor [1, 2, 3] 3 =
      (⟨[(Sev.error, .errTooShort 3)], 0, 0⟩, 0) ∧
    (parse_bos_descriptor [1, 2, 3] 3).1.errCount = 1) :=
  ⟨by decide, bos_short_buffer_single_error_no_caps [1, 2, 3] 3 (by decide)⟩

/-- C1 (refuting the claim; the code is the bug).  The two buffers
`c1buf 0` and `c1buf 1` agree on every byte below the declared length 25,
and differ only at physical index 27 — the WebUSB vendor-code position
`offset + 22`, which lies beyond the declared length.  Yet the BOS decode
distinguishes them (`c1buf 0` draws the vendor-code-zero warning), so the
decoder does read `data[offset+20..offset+23]` gated only on the record's
own `bLength ≥ 24`, not on those indices lying below the declared
length. -/
theorem bos_webusb_payload_read_beyond_declared_length :
    (c1buf 0).take 25 = (c1buf 1).take 25 ∧
    parse_bos_descriptor (c1buf 0) 25 ≠ parse_bos_descriptor (c1buf 1) 25 ∧
    (parse_bos_descriptor (c1buf 0) 25).1.warnings = 1 ∧
    (parse_bos_descriptor (c1buf 1) 25).1.warnings = 0 := by decide

/-- C2 counterexample.  A BOS buffer whose device-capability record at
offset 5 declares `bLength = 0`: the decode reports no error at all
(`error_count = 0`, no ERROR finding), and the walk does not terminate at
that record — it runs the full `bNumDeviceCaps = 2` iterations over the
same offset.  So a zero-length record is not "a hard decode error that
terminates the walk". -/
theorem bos_zero_length_cap_not_error_cex :
    byte [5, 15, 8, 0, 2, 0, 16, 0] 5 = 0 ∧
    (parse_bos_descriptor [5, 15, 8, 0, 2, 0, 16, 0] 8).1.errors = 0 ∧
    (parse_bos_descriptor [5, 15, 8, 0, 2, 0, 16, 0] 8).1.errCount = 0 ∧
    (parse_bos_descriptor [5, 15, 8, 0, 2, 0, 16, 0] 8).2 = 2 := by decide

/-- C2 amended.  A capability record with `bLength = 0` whose 3-byte
header is in bounds is not treated as an error: the iteration emits its
findings without touching `error_count`, the offset does not advance
(`offset + 0 = offset`), and the walk continues, terminating only
because `cap_count` is bounded by `bNumDeviceCaps`. -/
theorem bos_zero_length_cap_continues_walk (data : List Nat)
    (len offset capCount r : Nat) (st : Report BosFinding)
    (h1 : offset < len) (h2 : offset + 3 ≤ len) (h0 : byte data offset = 0) :
    bosWalk data len (r + 1) offset capCount st =
      bosWalk data len r offset (capCount + 1)
        (bosProcessCap data len offset capCount st) ∧
    (bosProcessCap data len offset capCount st).errors = st.errors := by
  have h2' : ¬ (offset + 3 > len) := by omega
  exact ⟨by simp [bosWalk, h1, h2', h0], bosProcessCap_errors data len offset capCount st⟩

/-- C2 amended witness: the step applied at the counterexample buffer. -/
theorem bos_zero_length_cap_continues_walk_witness :
    (5 : Nat) < 8 ∧ 5 + 3 ≤ 8 ∧ byte [5, 15, 8, 0, 2, 0, 16, 0] 5 = 0 ∧
    (bosWalk [5, 15, 8, 0, 2, 0, 16, 0] 8 (1 + 1) 5 0 Report.empty =
      bosWalk [5, 15, 8, 0, 2, 0, 16, 0] 8 1 5 (0 + 1)
        (bosProcessCap [5, 15, 8, 0, 2, 0, 16, 0] 8 5 0 Report.empty) ∧
    (bosProcessCap [5, 15, 8, 0, 2, 0, 16, 0] 8 5 0
        (Report.empty : Report BosFinding)).errors =
      (Report.empty : Report BosFinding).errors) :=
  ⟨by decide, by decide, by decide,
   bos_zero_length_cap_continues_walk [5, 15, 8, 0, 2, 0, 16, 0] 8 5 0 1
     Report.empty (by decide) (by decide) (by decide)⟩

/-- C3. When the first MS OS 2.0 sub-descriptor's declared `wLength`
exceeds the buffer (and the 4-byte header itself is readable), the
decode emits exactly one ERROR finding — "descriptor extends beyond
buffer" — and halts: the report is exactly the offset marker plus that
single error, with `error_count = 1`, no findings for any later bytes. -/
theorem msos_overlong_first_record_single_error_halts (data : List Nat)
    (len : Nat) (h4 : 4 ≤ len) (hw : len < word data 0) :
    parse_msos20_descriptor data len =
      ⟨[(Sev.info, .atOffset 0), (Sev.error, .errBeyond 0 (word data 0) len)],
        1, 0⟩ := by
  have h0 : 0 < len := by omega
  have hno : ¬ (0 + 4 > len) := by omega
  have hz : ¬ (word data 0 = 0) := by omega
  have hb : ¬ (word data 0 < 4) := by omega
  have hbe : 0 + word data 0 > len := by omega
  simp [parse_msos20_descriptor, msosWalkF, h0, hno, hz, hb, hbe, hw,
    Report.empty, Report.addInfo, Report.addErr, Report.push]

/-- C3 witness: a 4-byte buffer declaring `wLength = 10`. -/
theorem msos_overlong_first_record_single_error_halts_witness :
    (4 : Nat) ≤ 4 ∧ 4 < word [10, 0, 0, 0] 0 ∧
    parse_msos20_descriptor [10, 0, 0, 0] 4 =
      ⟨[(Sev.info, .atOffset 0), (Sev.error, .errBeyond 0 (word [10, 0, 0, 0] 0) 4)],
        1, 0⟩ :=
  ⟨by decide, by decide,
   msos_overlong_first_record_single_error_halts [10, 0, 0, 0] 4 (by decide) (by decide)⟩

/-- C10. The BOS device-capability walk executes at most
`bNumDeviceCaps` iterations — the final `cap_count` (second component)
is bounded by the byte `bNumDeviceCaps`, which being an 8-bit load is at
most 255 — for *every* input, in particular when a capability record
declares length 0 and the offset stops advancing (the loop counter, not
the offset, is what the embedding's structural recursion decreases
on, exactly mirroring why the C loop terminates). -/
theorem bos_walk_bounded_by_num_device_caps (data : List Nat) (length : Nat) :
    (parse_bos_descriptor data length).2 ≤ byte data 4 ∧ byte data 4 ≤ 255 := by
  constructor
  · by_cases h : length < 5
    · simp [parse_bos_descriptor, h]
    · have hb := bosWalk_caps_le data length (byte data 4) (byte data 0) 0
      simp only [parse_bos_descriptor, h, if_false]
      exact le_trans (hb _) (by omega)
  · have : data.getD 4 0 % 256 < 256 := Nat.mod_lt _ (by norm_num)
    simp only [byte]
    omega

/-- C4. For a BOS buffer with `length ≥ 5`, `bDescriptorType = 0x0F`,
`wTotalLength` equal to the declared length, and every capability record
the walk visits having an in-bounds 3-byte header, a non-zero declared
length and fitting within the buffer (`bosCapsOK`), the decode completes
with `error_count = 0` and no ERROR finding (warnings remain possible). -/
theorem bos_valid_buffer_no_errors (data : List Nat) (length : Nat)
    (h5 : 5 ≤ length) (ht : byte data 1 = 15) (htot : word data 2 = length)
    (hcaps : bosCapsOK data length (byte data 4) (byte data 0) = true) :
    (parse_bos_descriptor data length).1.errors = 0 ∧
    (parse_bos_descriptor data length).1.errCount = 0 := by
  have h5' : ¬ (length < 5) := by omega
  have key := bosWalk_capsOK_errors data length (byte data 4) (byte data 0) 0
  have hne1 : ¬ (byte data 1 ≠ 15) := by simp [ht]
  have hne2 : ¬ (word data 2 ≠ length) := by simp [htot]
  simp only [parse_bos_descriptor, h5', if_false, hne1, hne2, if_neg,
    not_false_eq_true]
  refine ⟨?_, ?_⟩
  · rw [(key _ hcaps).1]
    rfl
  · rw [(key _ hcaps).2]
    simp [Report.empty, Report.errCount]

/-- C4 witness: an 8-byte BOS buffer with one well-formed non-platform
capability record. -/
theorem bos_valid_buffer_no_errors_witness :
    (5 : Nat) ≤ 8 ∧ byte [5, 15, 8, 0, 1, 3, 16, 0] 1 = 15 ∧
    word [5, 15, 8, 0, 1, 3, 16, 0] 2 = 8 ∧
    bosCapsOK [5, 15, 8, 0, 1, 3, 16, 0] 8
      (byte [5, 15, 8, 0, 1, 3, 16, 0] 4) (byte [5, 15, 8, 0, 1, 3, 16, 0] 0) = true ∧
    ((parse_bos_descriptor [5, 15, 8, 0, 1, 3, 16, 0] 8).1.errors = 0 ∧
     (parse_bos_descriptor [5, 15, 8, 0, 1, 3, 16, 0] 8).1.errCount = 0) :=
  ⟨by decide, by decide, by decide, by decide,
   bos_valid_buffer_no_errors [5, 15, 8, 0, 1, 3, 16, 0] 8
     (by decide) (by decide) (by decide) (by decide)⟩

/-- C7. For any WebUSB URL buffer with declared length above 3, the
report is exactly the header dump, the scheme label, and a URL finding
whose text is the scheme mapping of `bScheme` (0 ↦ "http://",
1 ↦ "https://", 255 ↦ "", otherwise "unknown://") concatenated with the
raw bytes at offsets 3 … min bLength length - 1 — no character-set
validation — and both counters stay 0, so an unknown scheme is reported
without being an error or a warning. -/
theorem webusb_url_scheme_and_byte_echo (data : List Nat) (length : Nat)
    (h : 3 < length) :
    parse_webusb_url_descriptor data length =
      ⟨[(Sev.info, .header (byte data 0) (byte data 1) (byte data 2)),
        (Sev.info, .schemeLabel (schemeName (byte data 2))),
        (Sev.info, .url (schemeText (byte data 2))
          ((List.range' 3 (min (byte data 0) length - 3)).map (byte data)))],
        0, 0⟩ ∧
    schemeText (byte data 2) =
      (if byte data 2 = 0 then "http://" else if byte data 2 = 1 then "https://"
       else if byte data 2 = 255 then "" else "unknown://") := by
  have h3 : ¬ (length < 3) := by omega
  refine ⟨?_, rfl⟩
  simp [parse_webusb_url_descriptor, h3, h, urlBytes,
    Report.empty, Report.addInfo, Report.push]

/-- C7 witness: a 5-byte URL descriptor with the unknown scheme value 9. -/
theorem webusb_url_scheme_and_byte_echo_witness :
    (3 : Nat) < 5 ∧
    (parse_webusb_url_descriptor [5, 3, 9, 104, 105] 5 =
      ⟨[(Sev.info, .header (byte [5, 3, 9, 104, 105] 0) (byte [5, 3, 9, 104, 105] 1)
          (byte [5, 3, 9, 104, 105] 2)),
        (Sev.info, .schemeLabel (schemeName (byte [5, 3, 9, 104, 105] 2))),
        (Sev.info, .url (schemeText (byte [5, 3, 9, 104, 105] 2))
          ((List.range' 3 (min (byte [5, 3, 9, 104, 105] 0) 5 - 3)).map
            (byte [5, 3, 9, 104, 105])))], 0, 0⟩ ∧
    schemeText (byte [5, 3, 9, 104, 105] 2) =
      (if byte [5, 3, 9, 104, 105] 2 = 0 then "http://"
       else if byte [5, 3, 9, 104, 105] 2 = 1 then "https://"
       else if byte [5, 3, 9, 104, 105] 2 = 255 then "" else "unknown://")) :=
  ⟨by decide, webusb_url_scheme_and_byte_echo [5, 3, 9, 104, 105] 5 (by decide)⟩

/-- C8. An MS OS 2.0 sub-descriptor with an unknown `wDescriptorType`
(outside 0x00–0x04) that passes the step-3 length checks adds one ERROR
finding and increments `error_count`, but does not stop the walk: the
cursor advances by the record's `wLength` and decoding continues there
with the remaining fuel. -/
theorem msos_unknown_type_error_continues (data : List Nat)
    (len offset fuel : Nat) (st : Report MsFinding)
    (hin : offset + 4 ≤ len) (hw : 4 ≤ word data offset)
    (hfit : offset + word data offset ≤ len)
    (ht : 4 < word data (offset + 2)) :
    msosWalkF data len (fuel + 1) offset st =
      msosWalkF data len fuel (offset + word data offset)
        ((st.addInfo (.atOffset offset)).addErr
          (.errUnknownType (word data (offset + 2)) (word data offset))) ∧
    ((st.addInfo (.atOffset offset)).addErr
        (.errUnknownType (word data (offset + 2)) (word data offset))).errors
      = st.errors + 1 := by
  have h1 : offset < len := by omega
  have h2 : ¬ (offset + 4 > len) := by omega
  have hz : ¬ (word data offset = 0) := by omega
  have hlt : ¬ (word data offset < 4) := by omega
  have hbe : ¬ (offset + word data offset > len) := by omega
  have t0 : ¬ (word data (offset + 2) = 0) := by omega
  have t1 : ¬ (word data (offset + 2) = 1) := by omega
  have t2 : ¬ (word data (offset + 2) = 2) := by omega
  have t3 : ¬ (word data (offset + 2) = 3) := by omega
  have t4 : ¬ (word data (offset + 2) = 4) := by omega
  constructor
  · simp [msosWalkF, msosDispatch, h1, h2, hz, hlt, hbe, t0, t1, t2, t3, t4]
  · simp

/-- C8 witness: an unknown-type record (`wDescriptorType = 9`,
`wLength = 4`) at offset 0 of an 8-byte buffer. -/
theorem msos_unknown_type_error_continues_witness :
    (0 : Nat) + 4 ≤ 8 ∧ 4 ≤ word [4, 0, 9, 0, 10, 0, 0, 0] 0 ∧
    0 + word [4, 0, 9, 0, 10, 0, 0, 0] 0 ≤ 8 ∧
    4 < word [4, 0, 9, 0, 10, 0, 0, 0] 2 ∧
    (msosWalkF [4, 0, 9, 0, 10, 0, 0, 0] 8 (1 + 1) 0 Report.empty =
      msosWalkF [4, 0, 9, 0, 10, 0, 0, 0] 8 1 (0 + word [4, 0, 9, 0, 10, 0, 0, 0] 0)
        ((Report.empty.addInfo (.atOffset 0)).addErr
          (.errUnknownType (word [4, 0, 9, 0, 10, 0, 0, 0] 2)
            (word [4, 0, 9, 0, 10, 0, 0, 0] 0))) ∧
    (((Report.empty : Report MsFinding).addInfo (.atOffset 0)).addErr
        (.errUnknownType (word [4, 0, 9, 0, 10, 0, 0, 0] 2)
          (word [4, 0, 9, 0, 10, 0, 0, 0] 0))).errors =
      (Report.empty : Report MsFinding).errors + 1) :=
  ⟨by decide, by decide, by decide, by decide,
   msos_unknown_type_error_continues [4, 0, 9, 0, 10, 0, 0, 0] 8 0 1
     Report.empty (by decide) (by decide) (by decide) (by decide)⟩

/-- C6. For the Registry-Property Feature record `c6buf w` (declared
`wLength = w`, `wPropertyNameLength = 4` encoding UTF-16LE "A" plus a
NUL code unit, `wPropertyDataLength = 0`), the decode renders the
property name "A", echoes data length 0, and reports the length-mismatch
error `8 + 4 + 2 + 0 = 14 ≠ wLength` exactly when `w ≠ 14`. -/
theorem msos_registry_property_roundtrip (w : Nat) (h8 : 8 ≤ w) (hub : w < 65536) :
    (Sev.info, MsFinding.propertyName "A") ∈
      (parse_msos20_descriptor (c6buf w) (c6len w)).findings ∧
    (Sev.info, MsFinding.propertyDataLength 0) ∈
      (parse_msos20_descriptor (c6buf w) (c6len w)).findings ∧
    ((Sev.error, MsFinding.errLengthMismatch 14 w) ∈
      (parse_msos20_descriptor (c6buf w) (c6len w)).findings ↔ w ≠ 14) := by
  by_cases hsm : w ≤ 13
  · interval_cases w <;> decide
  · by_cases h14e : w = 14
    · subst h14e
      decide
    · have h15 : 15 ≤ w := by omega
      have h14 : 14 ≤ w := by omega
      have hlen : c6len w = w := by
        rw [c6len]
        exact Nat.max_eq_left h14
      have hw0 : word (c6buf w) 0 = w := by
        have e : word (c6buf w) 0 = w % 256 % 256 + 256 * (w / 256 % 256 % 256) := rfl
        omega
      have hb2 : word (c6buf w) 2 = 4 := rfl
      have hb4 : word (c6buf w) 4 = 1 := rfl
      have hb6 : word (c6buf w) 6 = 4 := rfl
      have hb8 : byte (c6buf w) 8 = 65 := rfl
      have hb12 : word (c6buf w) 12 = 0 := rfl
      have h9 : (9 : Nat) < w := by omega
      have hA : ("".push (Char.ofNat 65)) = "A" := rfl
      have hren : msosRenderName (c6buf w) w 8 1 "" 0 = ("A", 1) := by
        simp [msosRenderName, h9, hb8, hA]
      have h0w : (0 : Nat) < w := by omega
      have hn4 : ¬ ((0 : Nat) + 4 > w) := by omega
      have hzw : ¬ (w = 0) := by omega
      have hl4 : ¬ (w < 4) := by omega
      have hn8 : ¬ (w < 8) := by omega
      have h12 : ¬ (w < 12) := by omega
      have h14lt : ¬ (w < 14) := by omega
      have hne14 : (14 : Nat) ≠ w := by omega
      have hdone : ∀ fuel st, msosWalkF (c6buf w) w fuel w st = st :=
        msosWalkF_of_le (c6buf w) w w (le_refl w)
      have hparse : parse_msos20_descriptor (c6buf w) (c6len w) =
          ⟨[(Sev.info, .atOffset 0), (Sev.info, .regProperty w 1 4),
            (Sev.info, .propertyName "A"), (Sev.info, .propertyDataLength 0),
            (Sev.error, .errLengthMismatch 14 w)], 1, 0⟩ := by
        rw [hlen]
        simp [parse_msos20_descriptor, msosWalkF, msosDispatch, hw0, hb2, hb4,
          hb6, hb12, hren, h0w, hn4, hzw, hl4, hn8, h12, h14lt, hne14, hdone,
          Report.empty, Report.addInfo, Report.addErr, Report.push]
      rw [hparse]
      refine ⟨by simp, by simp, ⟨fun _ => by omega, fun _ => by simp⟩⟩

/-- C6 witness: the round-trip at the consistent value `wLength = 14`. -/
theorem msos_registry_property_roundtrip_witness :
    (8 : Nat) ≤ 14 ∧ (14 : Nat) < 65536 ∧
    ((Sev.info, MsFinding.propertyName "A") ∈
      (parse_msos20_descriptor (c6buf 14) (c6len 14)).findings ∧
    (Sev.info, MsFinding.propertyDataLength 0) ∈
      (parse_msos20_descriptor (c6buf 14) (c6len 14)).findings ∧
    ((Sev.error, MsFinding.errLengthMismatch 14 14) ∈
      (parse_msos20_descriptor (c6buf 14) (c6len 14)).findings ↔ (14 : Nat) ≠ 14)) :=
  ⟨by decide, by decide, msos_registry_property_roundtrip 14 (by decide) (by decide)⟩
